import Mathlib

/-!
Shallow embedding of the watermark-trimming and strip-composition core of
the ChapBuddy repository (`watermark_trimmer.py`, `main.py`, `bot.py`).

Modelling conventions.

An image is a width together with a list of pixel rows; a pixel is an
abstract `Nat` (no claim inspects colour structure).  Python integers are
`Nat` except where a Python subtraction can go negative before a
comparison, in which case the computation is done over `Int`.

Python's `int(h * c)` for the constants `c ∈ {0.6, 0.15, 0.85, 0.9, 0.8}`
is modelled as the exact floor (`3*h/5`, `3*h/20`, `17*h/20`, `9*h/10`,
`4*h/5` in `Nat` division): for every image height that fits in far more
than 52 bits the IEEE-754 double computation `h * c` lands strictly
between the neighbouring integers reached by the exact product, so `int`
truncation agrees with the exact floor.

The cv2/numpy pixel analyses (`matchTemplate`, Canny, morphology, row
statistics) are pure functions of the fixed image being processed; their
numeric outputs are carried as oracle inputs (fields of `TemplateEntry`,
the three sub-detector arguments of `detectWatermarkOpencv`), and all of
the decision logic built on top of them is translated literally.
-/

namespace ChapBuddy

/-- Raster image: a width together with the list of pixel rows, top row
first.  Each pixel is an abstract `Nat` code for an RGB value. -/
structure Img where
  width : Nat
  rows : List (List Nat)
deriving DecidableEq

/-- Image height in pixel rows (`img.height` in PIL). -/
def Img.height (img : Img) : Nat := img.rows.length

instance : Inhabited Img := ⟨⟨0, []⟩⟩

/-- Full-width vertical crop, PIL `img.crop((0, top, width, bottom))`:
keeps exactly the rows `top ≤ y < bottom`, unmodified. -/
def Img.crop (img : Img) (top bottom : Nat) : Img :=
  ⟨img.width, (img.rows.take bottom).drop top⟩

/-- One watermark template together with the `cv2.matchTemplate` /
`cv2.minMaxLoc` peaks against the (fixed) image being processed: `th`,
`tw` are the template dimensions (`ref_h`, `ref_w`); `topVal` / `topY`
(resp. `botVal` / `botY`) are the peak normalized cross-correlation
`max_val` and its row `max_loc[1]` in the top (resp. bottom) search band.
The correlation search itself is a pure function of image and template,
so carrying its two outputs per band alongside the template is a faithful
parameterisation. -/
structure TemplateEntry where
  th : Nat
  tw : Nat
  topVal : ℚ
  topY : Nat
  botVal : ℚ
  botY : Nat

/-- Loop body of `_detect_template_watermark` for one template: skip
templates larger than the image; otherwise search a band of height
`min(ref_h + 50, height // 3)` at the top and at the bottom, and when the
peak correlation reaches the 0.7 threshold take the maximum of the
accumulated trim with `max_loc[1] + ref_h` (top) or with
`search_height_bottom - max_loc[1]` (bottom).  The guard
`top_area.shape[0] >= ref_h and top_area.shape[1] >= ref_w` is
`t.th ≤ sh ∧ t.tw ≤ W`.  (When `sh = 0` Python's `img[-0:]` is the whole
image, but any match there contributes `max(acc, sh - maxY) = acc`, the
same outcome as this model's skipped band.) -/
def detectStep (H W : Nat) (acc : Nat × Nat) (t : TemplateEntry) : Nat × Nat :=
  if H < t.th ∨ W < t.tw then acc
  else
    let sh := min (t.th + 50) (H / 3)
    let a1 := if t.th ≤ sh ∧ t.tw ≤ W ∧ (7 : ℚ) / 10 ≤ t.topVal then
        max acc.1 (t.topY + t.th)
      else acc.1
    let a2 := if t.th ≤ sh ∧ t.tw ≤ W ∧ (7 : ℚ) / 10 ≤ t.botVal then
        max acc.2 (sh - t.botY)
      else acc.2
    (a1, a2)

/-- `_detect_template_watermark(img_cv)`: fold the per-template step over
the template list starting from `(top_trim, bottom_trim) = (0, 0)`. -/
def detectTemplateWatermark (H W : Nat) (ts : List TemplateEntry) : Nat × Nat :=
  ts.foldl (detectStep H W) (0, 0)

/-- Acceptance condition under which one template contributes a top trim:
it fits in the image, the top search band can hold it, and the peak
correlation is at least 0.7. -/
def topAccepted (H W : Nat) (t : TemplateEntry) : Prop :=
  ¬(H < t.th ∨ W < t.tw) ∧ t.th ≤ min (t.th + 50) (H / 3) ∧ t.tw ≤ W ∧
    (7 : ℚ) / 10 ≤ t.topVal

/-- Acceptance condition for a bottom-band template match. -/
def botAccepted (H W : Nat) (t : TemplateEntry) : Prop :=
  ¬(H < t.th ∨ W < t.tw) ∧ t.th ≤ min (t.th + 50) (H / 3) ∧ t.tw ≤ W ∧
    (7 : ℚ) / 10 ≤ t.botVal

instance (H W : Nat) (t : TemplateEntry) : Decidable (topAccepted H W t) := by
  unfold topAccepted; infer_instance

instance (H W : Nat) (t : TemplateEntry) : Decidable (botAccepted H W t) := by
  unfold botAccepted; infer_instance

/-- Trims contributed by the accepted top-band matches: for each accepted
template the trim reaches the bottom edge of the matched region,
`match_y + template_height`. -/
def acceptedTopTrims (H W : Nat) (ts : List TemplateEntry) : List Nat :=
  (ts.filter fun t => decide (topAccepted H W t)).map fun t => t.topY + t.th

/-- Trims contributed by the accepted bottom-band matches: the offset of
the match from the bottom of the search band. -/
def acceptedBotTrims (H W : Nat) (ts : List TemplateEntry) : List Nat :=
  (ts.filter fun t => decide (botAccepted H W t)).map fun t =>
    min (t.th + 50) (H / 3) - t.botY

/-- Insert a value into an ascending-sorted list. -/
def insertSorted (x : Nat) : List Nat → List Nat
  | [] => [x]
  | y :: ys => if x ≤ y then x :: y :: ys else y :: insertSorted x ys

/-- Insertion sort, ascending. -/
def sortNat (l : List Nat) : List Nat := l.foldr insertSorted []

/-- Python's `int(np.median(l))`: the middle element of the sorted list
for odd length, the floor of the average of the two middle elements for
even length. -/
def npMedianInt (l : List Nat) : Nat :=
  let s := sortNat l
  let n := s.length
  if n % 2 = 1 then s.getD (n / 2) 0
  else (s.getD (n / 2 - 1) 0 + s.getD (n / 2) 0) / 2

/-- `_detect_watermark_opencv(region, position)` aggregation: `tb`, `eb`,
`cb` are the results of the three cv2 sub-detectors (text density, edge
density, colour uniformity) on the region — pixel analyses taken as
inputs here — and `thr` is the vote threshold applied to each (100 in
`watermark_trimmer.py`, 40 in `main.py`).  Each result strictly above the
threshold joins `significant_boundaries` and adds one to `confidence`;
the returned trim is `int(np.median(...))` of the collected list, and
`(0, 0)` is returned when the list is empty. -/
def detectWatermarkOpencv (thr tb eb cb : Nat) : Nat × Nat :=
  let bs := (if thr < tb then [tb] else []) ++ (if thr < eb then [eb] else []) ++
    (if thr < cb then [cb] else [])
  let conf := (if thr < tb then 1 else 0) + (if thr < eb then 1 else 0) +
    (if thr < cb then 1 else 0)
  if bs = [] then (0, 0) else (npMedianInt bs, conf)

/-- Pattern-path top offset: `crop_top = min(top_trim, int(height * 0.15))`. -/
def cappedTop (h tt : Nat) : Nat := min tt (3 * h / 20)

/-- Pattern-path bottom coordinate:
`crop_bottom = max(height - bottom_trim, int(height * 0.85))`.  (A Python
negative `height - bottom_trim` is below the other `max` argument, so
truncated `Nat` subtraction yields the same value.) -/
def cappedBottom (h bt : Nat) : Nat := max (h - bt) (17 * h / 20)

/-- Template-branch acceptance in `trim_watermark`: some template trim is
positive and the retained height `(height - bottom_trim) - top_trim` is at
least `int(height * 0.6)`.  The subtraction is over `Int` because the
Python value can be negative. -/
def templAccept (h tTop tBot : Nat) : Prop :=
  (0 < tTop ∨ 0 < tBot) ∧ 3 * (h : Int) / 5 ≤ (h : Int) - tBot - tTop

instance (h a b : Nat) : Decidable (templAccept h a b) := by
  unfold templAccept; infer_instance

/-- Pattern-branch acceptance: some side's capped trim strictly exceeds
the pixel floor `pxf` with confidence at least 3 on that side
(`should_trim_top or should_trim_bottom`), and the retained height is at
least `int(height * rn/rd)` (`rn/rd` is 9/10 in `watermark_trimmer.py`,
4/5 in `main.py`). -/
def patternAccept (pxf rn rd h tt tc bt bc : Nat) : Prop :=
  ((pxf < cappedTop h tt ∧ 3 ≤ tc) ∨ (pxf < h - cappedBottom h bt ∧ 3 ≤ bc)) ∧
    rn * h / rd ≤ cappedBottom h bt - cappedTop h tt

instance (pxf rn rd h tt tc bt bc : Nat) :
    Decidable (patternAccept pxf rn rd h tt tc bt bc) := by
  unfold patternAccept; infer_instance

/-- Decision core of `trim_watermark` / `_trim_watermark`, shared by the
two pipeline copies; `pxf` is the absolute pixel floor (80 resp. 50) and
`rn/rd` the pattern retention fraction (9/10 resp. 4/5).  `tTop`, `tBot`
are the template-matcher trims; `tt, tc` (resp. `bt, bc`) the pattern trim
and confidence for the top (resp. bottom) band.  An accepted template
match crops `(0, top_trim, width, height - bottom_trim)` and returns
immediately; otherwise an accepted pattern decision crops both capped
offsets; otherwise the input is returned unchanged. -/
def trimCoreP (pxf rn rd : Nat) (img : Img)
    (tTop tBot tt tc bt bc : Nat) : Img :=
  let h := img.height
  if templAccept h tTop tBot then img.crop tTop (h - tBot)
  else if patternAccept pxf rn rd h tt tc bt bc then
    img.crop (cappedTop h tt) (cappedBottom h bt)
  else img

/-- `trim_watermark` of `watermark_trimmer.py` with Python's exception
flow made explicit.  `bodyErr` models an exception inside the
`trim_watermark` body itself (conversion or cropping): it reaches the
outer handler, which returns the input unchanged.  `tmplErr` models an
exception inside `_detect_template_watermark`: caught there, the function
returns `(0, 0)` and processing continues.  `detTopErr` / `detBotErr`
likewise model exceptions inside `_detect_watermark_opencv` on the top or
bottom band, each caught locally with result `(0, 0)`.  `sTop` and `sBot`
are the three sub-detector outputs for the top and bottom 20%-bands. -/
def trimWatermarkE (img : Img) (bodyErr tmplErr detTopErr detBotErr : Bool)
    (ts : List TemplateEntry) (sTop sBot : Nat × Nat × Nat) : Img :=
  if bodyErr then img
  else
    let td := if tmplErr then (0, 0) else
      detectTemplateWatermark img.height img.width ts
    let dt := if detTopErr then (0, 0) else
      detectWatermarkOpencv 100 sTop.1 sTop.2.1 sTop.2.2
    let db := if detBotErr then (0, 0) else
      detectWatermarkOpencv 100 sBot.1 sBot.2.1 sBot.2.2
    trimCoreP 80 9 10 img td.1 td.2 dt.1 dt.2 db.1 db.2

/-- `trim_watermark` of `watermark_trimmer.py` on an error-free run:
vote threshold 100, pixel floor 80, pattern retention 9/10. -/
def trimWatermark (img : Img) (ts : List TemplateEntry)
    (sTop sBot : Nat × Nat × Nat) : Img :=
  trimWatermarkE img false false false false ts sTop sBot

/-- `_trim_watermark` of `main.py` (error-free run): the duplicate
pipeline with vote threshold 40, pixel floor 50, pattern retention 4/5. -/
def trimWatermarkMain (img : Img) (ts : List TemplateEntry)
    (sTop sBot : Nat × Nat × Nat) : Img :=
  let td := detectTemplateWatermark img.height img.width ts
  let dt := detectWatermarkOpencv 40 sTop.1 sTop.2.1 sTop.2.2
  let db := detectWatermarkOpencv 40 sBot.1 sBot.2.1 sBot.2.2
  trimCoreP 50 4 5 img td.1 td.2 dt.1 dt.2 db.1 db.2

/-- Height of an image after resizing to target width `tw` preserving
aspect ratio: Python computes `new_height = int(height * (tw / width))`
and skips the resize when the width already matches.  The float product is
modelled by the exact floor `h * tw / w` (see the header note). -/
def resizedHeight (tw w h : Nat) : Nat :=
  if w = tw then h else h * tw / w

/-- Resize to width `tw` with `Image.LANCZOS` (`bot.py`,
`stitch_images_fallback`).  The resampled pixel values are a float
convolution that is not modelled — the rows are blank — but every claim
about resizing concerns only the dimensions of the result. -/
def resizeTo (tw : Nat) (img : Img) : Img :=
  if img.width = tw then img
  else ⟨tw, List.replicate (img.height * tw / img.width) (List.replicate tw 0)⟩

/-- Width of the stitching canvas in `process_images`:
`max(img.width for img in images)` (the caller guarantees a non-empty
list; the `0` seed is never the maximum there). -/
def maxWidth (imgs : List Img) : Nat := (imgs.map Img.width).foldl max 0

/-- One pasted row on a white canvas of width `W`: the source row followed
by white filler, clipped to the canvas width. -/
def pasteRow (W : Nat) (r : List Nat) : List Nat :=
  (r ++ List.replicate (W - r.length) 255).take W

/-- Stitching step of `process_images` (`main.py`): a white canvas of
width `max_width` and height `sum(img.height)`, with each image pasted at
the running vertical offset.  The pastes tile the canvas exactly, so the
rows are the concatenation of the padded rows of the inputs. -/
def stitchMain (imgs : List Img) : Img :=
  let W := maxWidth imgs
  ⟨W, (imgs.map fun i => i.rows.map (pasteRow W)).flatten⟩

/-- Row partition underlying `_split_image`: repeatedly take `T` rows
until none remain, the final chunk possibly shorter.  Python's loop never
terminates for `target_height ≤ 0`; the model returns `[]` there and the
claims constrain `T` to be positive, matching the `output_height > 0`
guard at the call site. -/
def splitRows (T : Nat) (l : List α) : List (List α) :=
  match l with
  | [] => []
  | x :: xs =>
    if _hT : T = 0 then []
    else (x :: xs).take T :: splitRows T ((x :: xs).drop T)
termination_by l.length
decreasing_by
  simp only [List.length_drop, List.length_cons]
  omega

/-- `_split_image(img, target_height)` (`main.py`): full-width crops
`(0, y, width, min(y + T, height))` at the successive offsets
`y = 0, T, 2T, …`. -/
def splitImage (img : Img) (T : Nat) : List Img :=
  (splitRows T img.rows).map fun rs => ⟨img.width, rs⟩

/-- Section assembly in `stitch_images_fallback` (`bot.py`):
`Image.new('RGB', (800, current_height))` with the accumulated images
pasted at their running offsets.  The pasted rows fill the canvas from the
top; the tracked `current_height` always equals their total height in
actual runs, leaving no filler. -/
def mkSection (cur : List Img) (curH : Nat) : Img :=
  ⟨800, ((cur.map Img.rows).flatten ++
    List.replicate (curH - ((cur.map Img.rows).flatten).length)
      (List.replicate 800 255)).take curH⟩

/-- Accumulating loop of `stitch_images_fallback`: resize each image to
width 800, start a new section when adding it would exceed `maxH`
(emitting the current section if non-empty), and emit the final section
at the end. -/
def fallbackGo (maxH : Nat) : List Img → List Img → Nat → List Img
  | [], cur, curH => if cur = [] then [] else [mkSection cur curH]
  | i :: rest, cur, curH =>
    let r := resizeTo 800 i
    if maxH < curH + r.height then
      (if cur = [] then [] else [mkSection cur curH]) ++ fallbackGo maxH rest [r] r.height
    else fallbackGo maxH rest (cur ++ [r]) (curH + r.height)

/-- `stitch_images_fallback(images, max_height)` (`bot.py`): empty input
yields an empty section list; otherwise the accumulating loop runs with an
empty current section. -/
def stitchFallback (imgs : List Img) (maxH : Nat) : List Img :=
  if imgs = [] then [] else fallbackGo maxH imgs [] 0

theorem Img.crop_height (img : Img) (a b : Nat) :
    (img.crop a b).height = min b img.height - a := by
  simp [Img.crop, Img.height]

theorem Img.crop_drop_take (img : Img) (a b : Nat) :
    img.crop a b = ⟨img.width, (img.rows.drop a).take (b - a)⟩ := by
  simp [Img.crop, List.drop_take]

theorem cappedTop_le (h tt : Nat) : cappedTop h tt ≤ 3 * h / 20 :=
  min_le_right _ _

theorem cappedBottom_ge (h bt : Nat) : 17 * h / 20 ≤ cappedBottom h bt :=
  le_max_right _ _

theorem cappedBottom_le_height (h bt : Nat) : cappedBottom h bt ≤ h := by
  unfold cappedBottom
  have : 17 * h / 20 ≤ h := by omega
  omega

theorem templAccept_le {h a b : Nat} (hA : templAccept h a b) : a + b ≤ h := by
  obtain ⟨-, h2⟩ := hA
  omega

theorem splitRows_ne_nil {α : Type _} (T : Nat) (hT : T ≠ 0) (l : List α)
    (hl : l ≠ []) : splitRows T l ≠ [] := by
  match l with
  | [] => exact absurd rfl hl
  | x :: xs => rw [splitRows]; simp [hT]

theorem splitRows_flatten {α : Type _} (T : Nat) (hT : T ≠ 0) :
    ∀ l : List α, (splitRows T l).flatten = l
  | [] => by rw [splitRows]; rfl
  | x :: xs => by
    rw [splitRows]
    simp only [dif_neg hT, List.flatten_cons]
    rw [splitRows_flatten T hT ((x :: xs).drop T)]
    exact List.take_append_drop T (x :: xs)
termination_by l => l.length
decreasing_by simp only [List.length_drop, List.length_cons]; omega

theorem splitRows_length_le {α : Type _} (T : Nat) :
    ∀ l : List α, ∀ c ∈ splitRows T l, c.length ≤ T
  | [] => by rw [splitRows]; simp
  | x :: xs => by
    rw [splitRows]
    by_cases hT : T = 0
    · simp [hT]
    · simp only [dif_neg hT, List.mem_cons]
      rintro c (rfl | hc)
      · simp only [List.length_take]; omega
      · exact splitRows_length_le T ((x :: xs).drop T) c hc
termination_by l => l.length
decreasing_by simp only [List.length_drop, List.length_cons]; omega

theorem splitRows_getD {α : Type _} (T : Nat) (hT : T ≠ 0) :
    ∀ (l : List α) (i : Nat), i + 1 < (splitRows T l).length →
      ((splitRows T l).getD i []).length = T
  | [], i, h => by rw [splitRows] at h; simp at h
  | x :: xs, i, h => by
    rw [splitRows] at h ⊢
    simp only [dif_neg hT] at h ⊢
    match i with
    | 0 =>
      simp only [List.getD_cons_zero, List.length_take]
      have hrest : splitRows T ((x :: xs).drop T) ≠ [] := by
        intro hnil
        rw [List.length_cons, hnil] at h
        simp at h
      have hdrop : (x :: xs).drop T ≠ [] := by
        intro hnil; rw [hnil] at hrest; exact hrest (by rw [splitRows])
      have hlen : 0 < ((x :: xs).drop T).length := List.length_pos.mpr hdrop
      rw [List.length_drop] at hlen
      rw [min_eq_left (by omega : T ≤ (x :: xs).length)]
    | i + 1 =>
      simp only [List.getD_cons_succ]
      exact splitRows_getD T hT ((x :: xs).drop T) i (by simpa using h)
termination_by l => l.length
decreasing_by simp only [List.length_drop, List.length_cons]; omega

theorem mkSection_height (cur : List Img) (curH : Nat) :
    (mkSection cur curH).height = curH := by
  unfold mkSection Img.height
  simp only [List.length_take, List.length_append, List.length_replicate]
  exact min_eq_left (by omega)

theorem resizeTo_height (img : Img) :
    (resizeTo 800 img).height = resizedHeight 800 img.width img.height := by
  unfold resizeTo resizedHeight
  by_cases hw : img.width = 800
  · rw [if_pos hw, if_pos hw]
  · rw [if_neg hw, if_neg hw]
    simp only [Img.height, List.length_replicate]

theorem fallbackGo_sum (maxH : Nat) :
    ∀ (imgs cur : List Img) (curH : Nat), (cur = [] → curH = 0) →
      ((fallbackGo maxH imgs cur curH).map Img.height).sum =
        curH + (imgs.map fun i => (resizeTo 800 i).height).sum
  | [], cur, curH, hinv => by
    unfold fallbackGo
    by_cases hc : cur = []
    · simp [hc, hinv hc]
    · simp [hc, mkSection_height]
  | i :: rest, cur, curH, hinv => by
    unfold fallbackGo
    by_cases ho : maxH < curH + (resizeTo 800 i).height
    · rw [if_pos ho]
      by_cases hc : cur = []
      · rw [if_pos hc]
        simp only [List.nil_append,
          fallbackGo_sum maxH rest [resizeTo 800 i] _ (by simp)]
        simp only [List.map_cons, List.sum_cons, hinv hc]
        omega
      · rw [if_neg hc]
        simp only [List.map_append, List.sum_append, List.map_cons, List.map_nil,
          List.sum_cons, List.sum_nil, mkSection_height,
          fallbackGo_sum maxH rest [resizeTo 800 i] _ (by simp)]
        simp
    · rw [if_neg ho,
        fallbackGo_sum maxH rest (cur ++ [resizeTo 800 i]) _ (by simp)]
      simp only [List.map_cons, List.sum_cons]
      omega

theorem detectStep_eq (H W : Nat) (acc : Nat × Nat) (t : TemplateEntry) :
    detectStep H W acc t =
      ((if topAccepted H W t then max acc.1 (t.topY + t.th) else acc.1),
       (if botAccepted H W t then max acc.2 (min (t.th + 50) (H / 3) - t.botY)
        else acc.2)) := by
  unfold detectStep topAccepted botAccepted
  by_cases h1 : H < t.th ∨ W < t.tw
  · simp [h1]
  · simp only [h1, if_false, not_false_iff, true_and]

theorem detect_foldl (H W : Nat) :
    ∀ (ts : List TemplateEntry) (a b : Nat),
      ts.foldl (detectStep H W) (a, b) =
        ((acceptedTopTrims H W ts).foldl max a,
         (acceptedBotTrims H W ts).foldl max b)
  | [], a, b => by simp [acceptedTopTrims, acceptedBotTrims]
  | t :: ts, a, b => by
    rw [List.foldl_cons, detectStep_eq, detect_foldl H W ts]
    unfold acceptedTopTrims acceptedBotTrims
    by_cases h1 : topAccepted H W t <;> by_cases h2 : botAccepted H W t <;>
      simp [h1, h2, List.filter_cons]

theorem getD_map_img (w : Nat) (cs : List (List (List Nat))) :
    ∀ i : Nat, i < cs.length →
      ((cs.map fun rs => (⟨w, rs⟩ : Img)).getD i default).height =
        (cs.getD i []).length := by
  induction cs with
  | nil => intro i hi; simp at hi
  | cons c cs ih =>
    intro i hi
    match i with
    | 0 => simp [Img.height]
    | i + 1 =>
      simp only [List.map_cons, List.getD_cons_succ]
      exact ih i (by simpa using hi)

theorem detectTemplateWatermark_nil (H W : Nat) :
    detectTemplateWatermark H W [] = (0, 0) := rfl

theorem replicate_img_height (w n : Nat) (r : List Nat) :
    (⟨w, List.replicate n r⟩ : Img).height = n := by
  simp [Img.height]

/-- C5: the template matcher accepts a match only when the peak
correlation is at least 0.7; an accepted top match contributes
`match_y + template_height` and an accepted bottom match the offset from
the bottom of the search band; the final trims are the maxima of the
accepted contributions across all templates, and every template taller or
wider than the image is excluded from the accepted lists, hence
contributes no trim. -/
theorem claim5_template_matcher (H W : Nat) (ts : List TemplateEntry) :
    detectTemplateWatermark H W ts =
      ((acceptedTopTrims H W ts).foldl max 0,
       (acceptedBotTrims H W ts).foldl max 0) :=
  detect_foldl H W ts 0 0

/-- C6: the boundary detector returns a confidence equal to the number of
sub-detector results strictly above the vote threshold — an integer in
[0, 3] — together with a trim equal to the integer median of exactly the
voting values, `(0, 0)` being returned when no sub-detector votes. -/
theorem claim6_vote_aggregation (thr tb eb cb : Nat) :
    detectWatermarkOpencv thr tb eb cb =
      ((if ([tb, eb, cb].filter fun v => decide (thr < v)) = [] then 0
        else npMedianInt ([tb, eb, cb].filter fun v => decide (thr < v))),
       ([tb, eb, cb].filter fun v => decide (thr < v)).length) ∧
    ([tb, eb, cb].filter fun v => decide (thr < v)).length ≤ 3 := by
  unfold detectWatermarkOpencv
  by_cases h1 : thr < tb <;> by_cases h2 : thr < eb <;> by_cases h3 : thr < cb <;>
    simp [h1, h2, h3, List.filter_cons]

/-- C8: resizing to a target width preserves the aspect ratio within one
pixel of height: the resized height is the floor of `h * tw / w`, i.e.
`nh * w ≤ h * tw < (nh + 1) * w`. -/
theorem claim8_aspect_ratio_preserved (tw w h : Nat) (hw : 0 < w) :
    resizedHeight tw w h * w ≤ h * tw ∧
      h * tw < (resizedHeight tw w h + 1) * w := by
  unfold resizedHeight
  by_cases hwt : w = tw
  · subst hwt
    rw [if_pos rfl]
    exact ⟨le_refl _, by
      rw [Nat.add_mul, Nat.one_mul]; omega⟩
  · rw [if_neg hwt]
    refine ⟨Nat.div_mul_le_self _ _, ?_⟩
    rw [Nat.add_mul, Nat.one_mul]
    exact Nat.lt_div_mul_add hw

/-- Witness for C8 at `tw = 800`, `w = 3`, `h = 10`. -/
theorem claim8_aspect_ratio_preserved_w :
    resizedHeight 800 3 10 * 3 ≤ 10 * 800 ∧
      10 * 800 < (resizedHeight 800 3 10 + 1) * 3 :=
  claim8_aspect_ratio_preserved 800 3 10 (by decide)

/-- C10: the trimmer's output is always a full-width contiguous vertical
band of the input (the whole image when no crop is accepted): there are
`a ≤ b ≤ height` such that the output is exactly the unmodified input rows
`a ≤ y < b` at the input's width. -/
theorem claim10_full_width_band (pxf rn rd : Nat) (img : Img)
    (tTop tBot tt tc bt bc : Nat) :
    ∃ a b, a ≤ b ∧ b ≤ img.height ∧
      trimCoreP pxf rn rd img tTop tBot tt tc bt bc =
        ⟨img.width, (img.rows.drop a).take (b - a)⟩ := by
  by_cases hA : templAccept img.height tTop tBot
  · have hle := templAccept_le hA
    refine ⟨tTop, img.height - tBot, by omega, by omega, ?_⟩
    simp only [trimCoreP, if_pos hA]
    exact Img.crop_drop_take img _ _
  · by_cases hP : patternAccept pxf rn rd img.height tt tc bt bc
    · refine ⟨cappedTop img.height tt, cappedBottom img.height bt, ?_,
        cappedBottom_le_height _ _, ?_⟩
      · have h1 := cappedTop_le img.height tt
        have h2 := cappedBottom_ge img.height bt
        omega
      · simp only [trimCoreP, if_neg hA, if_pos hP]
        exact Img.crop_drop_take img _ _
    · refine ⟨0, img.height, Nat.zero_le _, le_refl _, ?_⟩
      simp only [trimCoreP, if_neg hA, if_neg hP]
      cases img with
      | mk w rows => simp [Img.height]

/-- C3: compose-then-slice is height-conserving.  For `main.py`: the
stitched strip's height is the sum of the input heights, and slicing any
strip at a positive target conserves the total height.  For `bot.py`'s
fallback compositor: the empty input yields an empty section list, and the
section heights always sum to the sum of the resized input heights. -/
theorem claim3_height_conservation :
    (∀ imgs : List Img, imgs ≠ [] →
      (stitchMain imgs).height = (imgs.map Img.height).sum) ∧
    (∀ (strip : Img) (T : Nat), 0 < T →
      ((splitImage strip T).map Img.height).sum = strip.height) ∧
    (∀ maxH : Nat, stitchFallback [] maxH = []) ∧
    (∀ (imgs : List Img) (maxH : Nat),
      ((stitchFallback imgs maxH).map Img.height).sum =
        (imgs.map fun i => resizedHeight 800 i.width i.height).sum) := by
  refine ⟨?_, ?_, ?_, ?_⟩
  · intro imgs _
    simp only [stitchMain, Img.height, List.length_flatten, List.map_map]
    simp only [Function.comp_def, List.length_map]
    rfl
  · intro strip T hT
    have h1 : (splitImage strip T).map Img.height =
        (splitRows T strip.rows).map List.length := by
      unfold splitImage
      rw [List.map_map]
      simp [Function.comp_def, Img.height]
    rw [h1, ← List.length_flatten, splitRows_flatten T (by omega)]
    rfl
  · intro maxH; rfl
  · intro imgs maxH
    unfold stitchFallback
    by_cases he : imgs = []
    · simp [he]
    · rw [if_neg he, fallbackGo_sum maxH imgs [] 0 (fun _ => rfl)]
      simp only [Nat.zero_add, resizeTo_height]

/-- Witness for C3: the four conjuncts discharged at concrete inputs. -/
theorem claim3_height_conservation_w :
    (stitchMain [⟨1, [[0]]⟩]).height = ([(⟨1, [[0]]⟩ : Img)].map Img.height).sum ∧
    ((splitImage ⟨1, [[0], [1]]⟩ 1).map Img.height).sum =
      (⟨1, [[0], [1]]⟩ : Img).height ∧
    stitchFallback [] 5 = [] ∧
    ((stitchFallback [⟨800, [[2]]⟩] 5).map Img.height).sum =
      ([(⟨800, [[2]]⟩ : Img)].map fun i => resizedHeight 800 i.width i.height).sum :=
  ⟨claim3_height_conservation.1 _ (by decide),
   claim3_height_conservation.2.1 _ 1 (by decide),
   claim3_height_conservation.2.2.1 5,
   claim3_height_conservation.2.2.2 _ 5⟩

/-- C4: slicing a non-empty strip at a positive target height produces at
least one section; the sections' rows concatenate, in order, to exactly
the strip's rows (contiguous, top-to-bottom); every section has height at
most the target; and every section except possibly the last has height
exactly the target (cuts at exact multiples). -/
theorem claim4_slice_properties (strip : Img) (T : Nat) (hT : 0 < T)
    (hne : strip.rows ≠ []) :
    splitImage strip T ≠ [] ∧
    ((splitImage strip T).map Img.rows).flatten = strip.rows ∧
    (∀ p ∈ splitImage strip T, p.height ≤ T) ∧
    (∀ i : Nat, i + 1 < (splitImage strip T).length →
      ((splitImage strip T).getD i default).height = T) := by
  have hT0 : T ≠ 0 := by omega
  refine ⟨?_, ?_, ?_, ?_⟩
  · intro h
    exact splitRows_ne_nil T hT0 strip.rows hne (List.map_eq_nil_iff.mp h)
  · have h1 : (splitImage strip T).map Img.rows = splitRows T strip.rows := by
      unfold splitImage
      rw [List.map_map]
      simp [Function.comp_def]
    rw [h1, splitRows_flatten T hT0]
  · intro p hp
    obtain ⟨rs, hrs, rfl⟩ := List.mem_map.mp hp
    simpa [Img.height] using splitRows_length_le T strip.rows rs hrs
  · intro i hi
    unfold splitImage at hi ⊢
    rw [List.length_map] at hi
    rw [getD_map_img strip.width _ i (by omega)]
    exact splitRows_getD T hT0 strip.rows i hi

/-- Witness for C4 on a 3-row strip sliced at target height 2. -/
theorem claim4_slice_properties_w :
    splitImage ⟨1, [[1], [2], [3]]⟩ 2 ≠ [] ∧
    ((splitImage ⟨1, [[1], [2], [3]]⟩ 2).map Img.rows).flatten = [[1], [2], [3]] := by
  have h := claim4_slice_properties ⟨1, [[1], [2], [3]]⟩ 2 (by decide) (by decide)
  exact ⟨h.1, h.2.1⟩

/-- C1 (amended): every accepted crop satisfies the code's integer
retention floors: an accepted template crop retains at least
`int(0.6 * height)` rows, and an accepted pattern crop retains at least
`int(height * rn / rd)` rows — `9/10` in `watermark_trimmer.py` but `4/5`
(not the claimed `9/10`) in `main.py`'s copy. -/
theorem claim1_retention_floors (pxf rn rd : Nat) (img : Img)
    (tTop tBot tt tc bt bc : Nat) :
    (templAccept img.height tTop tBot →
      3 * img.height / 5 ≤
        (trimCoreP pxf rn rd img tTop tBot tt tc bt bc).height) ∧
    (¬ templAccept img.height tTop tBot →
      patternAccept pxf rn rd img.height tt tc bt bc →
      rn * img.height / rd ≤
        (trimCoreP pxf rn rd img tTop tBot tt tc bt bc).height) := by
  constructor
  · intro hA
    simp only [trimCoreP, if_pos hA, Img.crop_height]
    obtain ⟨-, h2⟩ := hA
    rw [min_eq_left (by omega : img.height - tBot ≤ img.height)]
    omega
  · intro hA hP
    simp only [trimCoreP, if_neg hA, if_pos hP, Img.crop_height]
    rw [min_eq_left (cappedBottom_le_height img.height bt)]
    exact hP.2

/-- Witness for C1: the template implication at an accepted template crop
on a 10-row image, and the pattern implication at `main.py`'s
instantiation (`pxf = 50`, retention `4/5`) on a 1000-row image. -/
theorem claim1_retention_floors_w :
    3 * (⟨1, List.replicate 10 [0]⟩ : Img).height / 5 ≤
      (trimCoreP 80 9 10 ⟨1, List.replicate 10 [0]⟩ 1 0 0 0 0 0).height ∧
    4 * (⟨1, List.replicate 1000 [0]⟩ : Img).height / 5 ≤
      (trimCoreP 50 4 5 ⟨1, List.replicate 1000 [0]⟩ 0 0 150 3 50 1).height :=
  ⟨(claim1_retention_floors 80 9 10 ⟨1, List.replicate 10 [0]⟩ 1 0 0 0 0 0).1
      (by rw [replicate_img_height]; decide),
   (claim1_retention_floors 50 4 5 ⟨1, List.replicate 1000 [0]⟩ 0 0 150 3 50 1).2
      (by rw [replicate_img_height]; decide)
      (by rw [replicate_img_height]; decide)⟩

/-- C1 counterexample: `main.py`'s `_trim_watermark` accepts a
pattern-based crop of a 1000-row image (no template match; unanimous top
signal 150, single-vote bottom signal 50) that retains only 800 rows —
strictly below the claimed `0.9 × height = 900`. -/
theorem claim1_retention_floors_cex :
    trimWatermarkMain ⟨1, List.replicate 1000 [0]⟩ [] (150, 150, 150) (50, 0, 0) =
      Img.crop ⟨1, List.replicate 1000 [0]⟩ 150 950 ∧
    (trimWatermarkMain ⟨1, List.replicate 1000 [0]⟩ [] (150, 150, 150)
      (50, 0, 0)).height = 800 ∧
    10 * (trimWatermarkMain ⟨1, List.replicate 1000 [0]⟩ [] (150, 150, 150)
      (50, 0, 0)).height < 9 * (⟨1, List.replicate 1000 [0]⟩ : Img).height := by
  have hdt : detectWatermarkOpencv 40 150 150 150 = (150, 3) := by decide
  have hdb : detectWatermarkOpencv 40 50 0 0 = (50, 1) := by decide
  have hb : trimWatermarkMain ⟨1, List.replicate 1000 [0]⟩ [] (150, 150, 150)
      (50, 0, 0) = trimCoreP 50 4 5 ⟨1, List.replicate 1000 [0]⟩ 0 0 150 3 50 1 := by
    simp only [trimWatermarkMain, detectTemplateWatermark_nil, hdt, hdb]
  have hH := replicate_img_height 1 1000 ([0] : List Nat)
  have hA : ¬ templAccept (⟨1, List.replicate 1000 [0]⟩ : Img).height 0 0 := by
    rw [hH]; decide
  have hP : patternAccept 50 4 5 (⟨1, List.replicate 1000 [0]⟩ : Img).height
      150 3 50 1 := by
    rw [hH]; decide
  have hct : cappedTop (⟨1, List.replicate 1000 [0]⟩ : Img).height 150 = 150 := by
    rw [hH]; decide
  have hcb : cappedBottom (⟨1, List.replicate 1000 [0]⟩ : Img).height 50 = 950 := by
    rw [hH]; decide
  have hres : trimCoreP 50 4 5 ⟨1, List.replicate 1000 [0]⟩ 0 0 150 3 50 1 =
      Img.crop ⟨1, List.replicate 1000 [0]⟩ 150 950 := by
    simp only [trimCoreP, if_neg hA, if_pos hP, hct, hcb]
  refine ⟨hb.trans hres, ?_, ?_⟩
  · rw [hb, hres, Img.crop_height, hH]; decide
  · rw [hb, hres, Img.crop_height, hH]; decide

/-- C2 (amended): with no accepted template match, the trimmer returns the
input unchanged unless at least one side's capped trim strictly exceeds
the pixel floor with confidence 3 on that same side; conversely, any
changed output requires an accepted template match or one such side.  When
the pattern crop fires, it applies BOTH capped offsets, so the other side
can be trimmed without itself meeting the conditions. -/
theorem claim2_pattern_gate (pxf rn rd : Nat) (img : Img)
    (tTop tBot tt tc bt bc : Nat) :
    (¬ templAccept img.height tTop tBot →
      ¬ (pxf < cappedTop img.height tt ∧ 3 ≤ tc) →
      ¬ (pxf < img.height - cappedBottom img.height bt ∧ 3 ≤ bc) →
      trimCoreP pxf rn rd img tTop tBot tt tc bt bc = img) ∧
    (trimCoreP pxf rn rd img tTop tBot tt tc bt bc ≠ img →
      templAccept img.height tTop tBot ∨
        (pxf < cappedTop img.height tt ∧ 3 ≤ tc) ∨
        (pxf < img.height - cappedBottom img.height bt ∧ 3 ≤ bc)) := by
  have key : ¬ templAccept img.height tTop tBot →
      ¬ (pxf < cappedTop img.height tt ∧ 3 ≤ tc) →
      ¬ (pxf < img.height - cappedBottom img.height bt ∧ 3 ≤ bc) →
      trimCoreP pxf rn rd img tTop tBot tt tc bt bc = img := by
    intro hA hT hB
    have hP : ¬ patternAccept pxf rn rd img.height tt tc bt bc := by
      intro hP
      rcases hP.1 with hc | hc
      · exact hT hc
      · exact hB hc
    simp only [trimCoreP, if_neg hA, if_neg hP]
  refine ⟨key, ?_⟩
  intro hne
  by_cases c1 : templAccept img.height tTop tBot
  · exact Or.inl c1
  · by_cases c2 : pxf < cappedTop img.height tt ∧ 3 ≤ tc
    · exact Or.inr (Or.inl c2)
    · by_cases c3 : pxf < img.height - cappedBottom img.height bt ∧ 3 ≤ bc
      · exact Or.inr (Or.inr c3)
      · exact absurd (key c1 c2 c3) hne

/-- Witness for C2: the identity implication discharged on a 1-row image
with all detector outputs zero. -/
theorem claim2_pattern_gate_w :
    trimCoreP 80 9 10 ⟨1, [[5]]⟩ 0 0 0 0 0 0 = ⟨1, [[5]]⟩ :=
  (claim2_pattern_gate 80 9 10 ⟨1, [[5]]⟩ 0 0 0 0 0 0).1
    (by decide) (by decide) (by decide)

/-- C2 counterexample: on a 2100-row image with no template match, a
unanimous top signal (trim 101, confidence 3) and a single-vote bottom
signal (trim 109, confidence 1), `trim_watermark` crops to rows
`101 ≤ y < 1991`: the bottom side loses 109 rows although its confidence
is 1, not the unanimous 3 the claim requires for a crop on that side. -/
theorem claim2_pattern_gate_cex :
    trimWatermark ⟨1, List.replicate 2100 [0]⟩ [] (101, 101, 101) (109, 0, 0) =
      Img.crop ⟨1, List.replicate 2100 [0]⟩ 101 1991 ∧
    (1991 : Nat) < (⟨1, List.replicate 2100 [0]⟩ : Img).height ∧
    detectWatermarkOpencv 100 109 0 0 = (109, 1) ∧
    ¬ 3 ≤ (detectWatermarkOpencv 100 109 0 0).2 := by
  have hdt : detectWatermarkOpencv 100 101 101 101 = (101, 3) := by decide
  have hdb : detectWatermarkOpencv 100 109 0 0 = (109, 1) := by decide
  have hb : trimWatermark ⟨1, List.replicate 2100 [0]⟩ [] (101, 101, 101)
      (109, 0, 0) =
      trimCoreP 80 9 10 ⟨1, List.replicate 2100 [0]⟩ 0 0 101 3 109 1 := by
    simp only [trimWatermark, trimWatermarkE, Bool.false_eq_true, if_false,
      detectTemplateWatermark_nil, hdt, hdb]
  have hH := replicate_img_height 1 2100 ([0] : List Nat)
  have hA : ¬ templAccept (⟨1, List.replicate 2100 [0]⟩ : Img).height 0 0 := by
    rw [hH]; decide
  have hP : patternAccept 80 9 10 (⟨1, List.replicate 2100 [0]⟩ : Img).height
      101 3 109 1 := by
    rw [hH]; decide
  have hct : cappedTop (⟨1, List.replicate 2100 [0]⟩ : Img).height 101 = 101 := by
    rw [hH]; decide
  have hcb : cappedBottom (⟨1, List.replicate 2100 [0]⟩ : Img).height 109 = 1991 := by
    rw [hH]; decide
  refine ⟨?_, ?_, by decide, by decide⟩
  · rw [hb]
    simp only [trimCoreP, if_neg hA, if_pos hP, hct, hcb]
  · rw [hH]; decide

/-- C7: the pattern path caps the top offset at `int(0.15 * height)` and
keeps the bottom coordinate at least `int(0.85 * height)` (and at most the
height) regardless of the detected values; and whenever a pattern crop is
applied (with a positive pixel floor, as in both copies), the crop equals
the both-sided capped crop and its bounds are valid:
`top_offset + bottom_offset < height`, a non-empty in-bounds region. -/
theorem claim7_crop_bounds (pxf rn rd : Nat) (img : Img)
    (tTop tBot tt tc bt bc : Nat) (hpxf : 0 < pxf) :
    (cappedTop img.height tt ≤ 3 * img.height / 20 ∧
     17 * img.height / 20 ≤ cappedBottom img.height bt ∧
     cappedBottom img.height bt ≤ img.height) ∧
    (¬ templAccept img.height tTop tBot →
      patternAccept pxf rn rd img.height tt tc bt bc →
      trimCoreP pxf rn rd img tTop tBot tt tc bt bc =
        img.crop (cappedTop img.height tt) (cappedBottom img.height bt) ∧
      cappedTop img.height tt + (img.height - cappedBottom img.height bt) <
        img.height) := by
  refine ⟨⟨cappedTop_le _ _, cappedBottom_ge _ _, cappedBottom_le_height _ _⟩, ?_⟩
  intro hA hP
  refine ⟨by simp only [trimCoreP, if_neg hA, if_pos hP], ?_⟩
  have h1 := cappedTop_le img.height tt
  have h2 := cappedBottom_ge img.height bt
  have h3 := cappedBottom_le_height img.height bt
  obtain ⟨hc, -⟩ := hP
  rcases hc with ⟨hc1, -⟩ | ⟨hc1, -⟩ <;> omega

/-- Witness for C7 on an 810-row image with an accepted bottom-side
pattern crop (bottom trim 81, confidence 3). -/
theorem claim7_crop_bounds_w :
    trimCoreP 80 9 10 ⟨1, List.replicate 810 [0]⟩ 0 0 0 0 81 3 =
      Img.crop ⟨1, List.replicate 810 [0]⟩
        (cappedTop (⟨1, List.replicate 810 [0]⟩ : Img).height 0)
        (cappedBottom (⟨1, List.replicate 810 [0]⟩ : Img).height 81) ∧
    cappedTop (⟨1, List.replicate 810 [0]⟩ : Img).height 0 +
        ((⟨1, List.replicate 810 [0]⟩ : Img).height -
          cappedBottom (⟨1, List.replicate 810 [0]⟩ : Img).height 81) <
      (⟨1, List.replicate 810 [0]⟩ : Img).height :=
  (claim7_crop_bounds 80 9 10 ⟨1, List.replicate 810 [0]⟩ 0 0 0 0 81 3
    (by decide)).2 (by rw [replicate_img_height]; decide)
    (by rw [replicate_img_height]; decide)

/-- C9 (amended): the trimmer never propagates an exception.  An error in
the `trim_watermark` body itself returns the input unchanged; an error
inside `_detect_template_watermark` is absorbed there — the run behaves
exactly as if the template store were empty — and an error inside either
`_detect_watermark_opencv` call behaves exactly as if that band's
sub-detector signals were all zero.  Processing continues after an
absorbed inner error, so the output may still be a crop. -/
theorem claim9_error_absorption (img : Img) (be te dte dbe : Bool)
    (ts : List TemplateEntry) (sT sB : Nat × Nat × Nat) :
    (be = true → trimWatermarkE img be te dte dbe ts sT sB = img) ∧
    trimWatermarkE img be true dte dbe ts sT sB =
      trimWatermarkE img be false dte dbe [] sT sB ∧
    trimWatermarkE img be te true dbe ts sT sB =
      trimWatermarkE img be te false dbe ts (0, 0, 0) sB ∧
    trimWatermarkE img be te dte true ts sT sB =
      trimWatermarkE img be te dte false ts sT (0, 0, 0) := by
  have h0t : detectTemplateWatermark img.height img.width [] = (0, 0) := rfl
  have h0d : detectWatermarkOpencv 100 0 0 0 = (0, 0) := rfl
  refine ⟨?_, ?_, ?_, ?_⟩
  · intro hbe; simp [trimWatermarkE, hbe]
  · cases be <;> simp [trimWatermarkE, h0t]
  · cases be <;> simp [trimWatermarkE, h0d]
  · cases be <;> simp [trimWatermarkE, h0d]

/-- Witness for C9: the body-error implication discharged on a 1-row
image. -/
theorem claim9_error_absorption_w :
    trimWatermarkE ⟨1, [[3]]⟩ true false false false [] (0, 0, 0) (0, 0, 0) =
      ⟨1, [[3]]⟩ :=
  (claim9_error_absorption ⟨1, [[3]]⟩ true false false false [] (0, 0, 0)
    (0, 0, 0)).1 rfl

/-- C9 counterexample: with an internal error inside template matching
(`tmplErr = true`) on a 1010-row image whose top band has a unanimous
pattern signal of 101, the trimmer still crops (output height 909), so an
internal error does not make it return the input unchanged. -/
theorem claim9_error_absorption_cex :
    (trimWatermarkE ⟨1, List.replicate 1010 [0]⟩ false true false false []
        (101, 101, 101) (0, 0, 0)).height = 909 ∧
    trimWatermarkE ⟨1, List.replicate 1010 [0]⟩ false true false false []
        (101, 101, 101) (0, 0, 0) ≠ ⟨1, List.replicate 1010 [0]⟩ := by
  have hdt : detectWatermarkOpencv 100 101 101 101 = (101, 3) := by decide
  have hdb : detectWatermarkOpencv 100 0 0 0 = (0, 0) := by decide
  have hb : trimWatermarkE ⟨1, List.replicate 1010 [0]⟩ false true false false []
      (101, 101, 101) (0, 0, 0) =
      trimCoreP 80 9 10 ⟨1, List.replicate 1010 [0]⟩ 0 0 101 3 0 0 := by
    simp only [trimWatermarkE, Bool.false_eq_true, Bool.true_eq_false, if_false,
      if_true, hdt, hdb]
  have hH := replicate_img_height 1 1010 ([0] : List Nat)
  have hA : ¬ templAccept (⟨1, List.replicate 1010 [0]⟩ : Img).height 0 0 := by
    rw [hH]; decide
  have hP : patternAccept 80 9 10 (⟨1, List.replicate 1010 [0]⟩ : Img).height
      101 3 0 0 := by
    rw [hH]; decide
  have hht : (trimCoreP 80 9 10 ⟨1, List.replicate 1010 [0]⟩ 0 0 101 3 0 0).height =
      909 := by
    simp only [trimCoreP, if_neg hA, if_pos hP, Img.crop_height]
    rw [hH]; decide
  constructor
  · rw [hb]; exact hht
  · rw [hb]
    intro heq
    have h2 := congrArg Img.height heq
    rw [hht, hH] at h2
    exact absurd h2 (by decide)

end ChapBuddy
